import Mathlib

/-!
Shallow embedding of `src/homework5/bagging.py` (class `SimplifiedBaggingRegressor`).

Modelling choices:
* Numeric values are `NQ := Option ℚ`, where `none` models IEEE NaN and
  `some q` an ordinary number.  Arithmetic propagates NaN, `np.mean` of an
  empty list is NaN, and `np.isnan(x).any()` on a scalar is `Option.isNone`.
* A base model (the external capability with `predict`) is a function
  `α → NQ` from a feature vector to a prediction.  The combination of
  `model_constructor()` followed by `model.fit(data_bag, target_bag)` is an
  external parameter `fitModel : List α → List NQ → (α → NQ)`; a fresh
  instance per bag is captured by applying it anew to each bag's sample.
* `np.random.choice(n, size=n, replace=True)` draws `size` independent
  uniform values from `[0, n)`; the shared global random stream is a
  parameter `rng : ℕ → ℕ` consumed sequentially, each raw draw reduced
  `% n` into range.  Bag `b` consumes stream positions `b*n .. b*n + n - 1`.
* Python attribute mutation is explicit state passing on the `Regressor`
  structure; the `assert` statements in `fit` become an `Except String`
  error branch.
* `self.oob_predictions` holds Python `None` or a prediction (which may
  itself be NaN), hence elements of type `Option NQ`: the outer `none` is
  Python's `None`, an inner `none` is a NaN prediction.
-/

namespace Bagging

/-- A numeric value: `none` is NaN, `some q` a real number (as a rational). -/
abbrev NQ := Option ℚ

/-- Addition with NaN propagation. -/
def nqAdd : NQ → NQ → NQ
  | some a, some b => some (a + b)
  | _, _ => none

/-- Subtraction with NaN propagation. -/
def nqSub : NQ → NQ → NQ
  | some a, some b => some (a - b)
  | _, _ => none

/-- Squaring (`x ** 2`) with NaN propagation. -/
def nqSqr : NQ → NQ
  | some a => some (a * a)
  | none => none

/-- Sum of a list of values; NaN if any element is NaN. -/
def nqSum (l : List NQ) : NQ := l.foldr nqAdd (some 0)

/-- `np.mean` of a 1-d collection: NaN when the collection is empty or
contains a NaN, else the arithmetic mean. -/
def npMean (l : List NQ) : NQ :=
  if l.isEmpty then none
  else
    match nqSum l with
    | some s => some (s / (l.length : ℚ))
    | none => none

/-- `np.isnan(x).any()` for a scalar value. -/
def npIsnanAny (x : NQ) : Bool := x.isNone

/-- `np.mean(rows, axis=0)` for a stack of equal-length rows: the
elementwise mean along the first axis. -/
def npMeanAxis0 (rows : List (List NQ)) : List NQ :=
  match rows with
  | [] => []
  | r0 :: _ => (List.range r0.length).map fun j =>
      npMean (rows.map fun row => row.getD j none)

/-- The attribute state of a `SimplifiedBaggingRegressor` instance. -/
structure Regressor (α : Type) where
  num_bags : ℕ
  oob : Bool
  data : List α
  target : List NQ
  indices_list : List (List ℕ)
  models_list : List (α → NQ)
  list_of_predictions_lists : List (List NQ)
  oob_predictions : List (Option NQ)

variable {α : Type}

/-- `np.random.choice(n, size=size, replace=True)` reading raw draws from
the stream `rng` starting at position `start`, each reduced into `[0, n)`. -/
def npRandomChoice (rng : ℕ → ℕ) (n size start : ℕ) : List ℕ :=
  (List.range size).map fun j => rng (start + j) % n

/-- `_generate_splits`: one bootstrap bag of `len(data)` indices per bag,
stored in `self.indices_list`. -/
def generateSplits (rng : ℕ → ℕ) (r : Regressor α) (data : List α) : Regressor α :=
  { r with indices_list :=
      (List.range r.num_bags).map fun bag =>
        npRandomChoice rng data.length data.length (bag * data.length) }

/-- `fit` up to (and including) fitting the per-bag models, i.e. everything
before the final `if self.oob:` block:  store `data`/`target`, generate the
splits, run the two `assert` statements, then fit one fresh model per bag
on the bootstrap sample `data[indices], target[indices]`. -/
def fitCore [Inhabited α] (fitModel : List α → List NQ → (α → NQ)) (rng : ℕ → ℕ)
    (r : Regressor α) (data : List α) (target : List NQ) :
    Except String (Regressor α) :=
  let r1 : Regressor α := { r with data := data, target := target }
  let r2 := generateSplits rng r1 data
  if (r2.indices_list.map List.length).dedup.length ≠ 1 then
    .error "All bags should be of the same length!"
  else if (r2.indices_list.map List.length).headD 0 ≠ data.length then
    .error "All bags should contain len(data) number of elements!"
  else
    let models := r2.indices_list.map fun idxs =>
      fitModel (idxs.map fun j => data.getD j default) (idxs.map fun j => target.getD j none)
    .ok { r2 with models_list := models }

/-- `fit`: `fitCore` followed by the `if self.oob:` re-assignment of
`self.data` and `self.target`. -/
def fit [Inhabited α] (fitModel : List α → List NQ → (α → NQ)) (rng : ℕ → ℕ)
    (r : Regressor α) (data : List α) (target : List NQ) :
    Except String (Regressor α) :=
  match fitCore fitModel rng r data target with
  | .error e => .error e
  | .ok r3 => .ok (if r3.oob then { r3 with data := data, target := target } else r3)

/-- `predict`: `np.mean([model.predict(data) for model in models_list], axis=0)`. -/
def predict (s : Regressor α) (data : List α) : List NQ :=
  npMeanAxis0 (s.models_list.map fun model => data.map model)

/-- `_get_oob_predictions_from_every_model`: for every example index `i`
and every bag, if `i` is not in that bag's index list, append that bag's
model's prediction on `data[i]`. -/
def gatherOOB [Inhabited α] (s : Regressor α) : Regressor α :=
  { s with list_of_predictions_lists :=
      (List.range s.data.length).map fun i =>
        (List.range s.num_bags).filterMap fun bag =>
          if i ∈ s.indices_list.getD bag [] then none
          else some ((s.models_list.getD bag fun _ => none) (s.data.getD i default)) }

/-- `_get_averaged_oob_predictions`: gather OOB predictions, then for each
example append `np.mean(predictions, axis=0)` when
`len(predictions) < num_bags`, else Python `None`. -/
def averagedOOB [Inhabited α] (s : Regressor α) : Regressor α :=
  let s1 := gatherOOB s
  { s1 with oob_predictions :=
      s1.list_of_predictions_lists.map fun predictions =>
        if predictions.length < s1.num_bags then some (npMean predictions)
        else none }

/-- The body of the `OOB_score` loop at index `i`: `some` of the squared
error when `oob_predictions[i]` is not `None` and the squared error has no
NaN component, else nothing appended. -/
def oobContribution (s : Regressor α) (i : ℕ) : Option NQ :=
  match s.oob_predictions.getD i none with
  | none => none
  | some prediction =>
      let squared_error := nqSqr (nqSub prediction (s.target.getD i none))
      if npIsnanAny squared_error then none else some squared_error

/-- The `squared_errors` list built by the `OOB_score` loop. -/
def oobSquaredErrors (s : Regressor α) : List NQ :=
  (List.range s.data.length).filterMap (oobContribution s)

/-- `OOB_score`: run `_get_averaged_oob_predictions` (mutating the derived
attributes), collect the qualifying squared errors, return their mean
 together with the post-call state. -/
def OOB_score [Inhabited α] (s : Regressor α) : NQ × Regressor α :=
  let s1 := averagedOOB s
  (npMean (oobSquaredErrors s1), s1)

/-- Spec-side description (claim C4): the squared error of example `i`
against its averaged OOB prediction, on the state after the averaging step. -/
def specSqError (s : Regressor α) (i : ℕ) : NQ :=
  nqSqr (nqSub ((s.oob_predictions.getD i none).getD none) (s.target.getD i none))

/-- Spec-side description (claim C4): example `i` qualifies for the OOB
average iff its averaged prediction is present (not Python `None`) and its
squared error has no NaN component. -/
def specQualifies (s : Regressor α) (i : ℕ) : Bool :=
  (s.oob_predictions.getD i none).isSome && !npIsnanAny (specSqError s i)

/-- A concrete fitted state: `num_bags = 1`, two examples `[10, 20]` with
targets `1, 2`, the single bag `[0, 0]` (so example 0 is in the bag and
example 1 is out of bag), and a single model constantly predicting `5`. -/
def exState1 : Regressor ℕ :=
  ⟨1, true, [10, 20], [some 1, some 2], [[0, 0]], [fun _ => some 5], [], []⟩

/-- The state produced by `fit` with `num_bags = 1` on `data = [10, 20]`,
`target = [1, 2]`, the all-zero random stream (bag `[0, 0]`) and a base
model that always predicts `7`. -/
def fittedOne : Regressor ℕ :=
  ⟨1, false, [10, 20], [some 1, some 2], [[0, 0]], [fun _ => some 7], [], []⟩

/-- A concrete two-bag fitted state with models predicting `5` and `3`. -/
def ensemble2 : Regressor ℕ :=
  ⟨2, true, [10, 20], [some 1, some 2], [[0, 0], [0, 1]],
   [fun _ => some 5, fun _ => some 3], [], []⟩

/-! ## Helper lemmas -/

/-- A `filterMap` whose body is an if-some/none split is a `filter`
followed by a `map`. -/
theorem filterMap_eq_filter_map_of {β γ : Type} (F : β → Option γ) (c : β → Bool)
    (f : β → γ) (h : ∀ b, F b = if c b then some (f b) else none) :
    ∀ l : List β, l.filterMap F = (l.filter c).map f := by
  intro l
  induction l with
  | nil => rfl
  | cons a l ih =>
    cases hc : c a <;>
      simp [List.filterMap_cons, List.filter_cons, h, hc, ih]

/-- The lengths of the generated bags: `num_bags` copies of `len(data)`. -/
theorem genSplits_map_length (rng : ℕ → ℕ) (r : Regressor α) (data : List α) :
    (generateSplits rng r data).indices_list.map List.length
      = List.replicate r.num_bags data.length := by
  simp only [generateSplits, List.map_map]
  refine List.eq_replicate_iff.2 ⟨by simp, ?_⟩
  intro b hb
  simp only [List.mem_map, List.mem_range] at hb
  obtain ⟨j, hj, rfl⟩ := hb
  simp [npRandomChoice]

/-! ## Claims -/

/-- Claim C7: for all `N > 0` and `num_bags > 0`, the sampler produces
exactly `num_bags` bags, each an ordered sequence of exactly `N` indices,
every index lying in `[0, N)`. -/
theorem generateSplits_bags_spec (rng : ℕ → ℕ) (r : Regressor α) (data : List α)
    (hN : 0 < data.length) (hB : 0 < r.num_bags) :
    (generateSplits rng r data).indices_list.length = r.num_bags ∧
    ∀ bag ∈ (generateSplits rng r data).indices_list,
      bag.length = data.length ∧ ∀ idx ∈ bag, idx < data.length := by
  refine ⟨by simp [generateSplits], ?_⟩
  intro bag hbag
  simp only [generateSplits, List.mem_map, List.mem_range] at hbag
  obtain ⟨b, hb, rfl⟩ := hbag
  refine ⟨by simp [npRandomChoice], ?_⟩
  intro idx hidx
  simp only [npRandomChoice, List.mem_map, List.mem_range] at hidx
  obtain ⟨j, hj, rfl⟩ := hidx
  exact Nat.mod_lt _ hN

/-- Witness for C7 at `N = 2`, `num_bags = 2`, identity random stream. -/
theorem generateSplits_bags_spec_witness :
    (generateSplits (fun k => k) (⟨2, true, [], [], [], [], [], []⟩ : Regressor ℕ)
        [10, 20]).indices_list.length = 2 ∧
    ∀ bag ∈ (generateSplits (fun k => k)
        (⟨2, true, [], [], [], [], [], []⟩ : Regressor ℕ) [10, 20]).indices_list,
      bag.length = ([10, 20] : List ℕ).length ∧
        ∀ idx ∈ bag, idx < ([10, 20] : List ℕ).length :=
  generateSplits_bags_spec (fun k => k) ⟨2, true, [], [], [], [], [], []⟩ [10, 20]
    (by decide) (by decide)

/-- Claim C6: for a non-empty dataset and positive `num_bags`, both bag-length
assertion conditions in `fit` hold on the sampler's output, so the
assertion-failure branches are unreachable and `fit` returns successfully. -/
theorem fit_assertions_unreachable [Inhabited α] (fitModel : List α → List NQ → (α → NQ))
    (rng : ℕ → ℕ) (r : Regressor α) (data : List α) (target : List NQ)
    (hN : 0 < data.length) (hB : 0 < r.num_bags) :
    ((generateSplits rng { r with data := data, target := target } data).indices_list.map
        List.length).dedup.length = 1 ∧
    ((generateSplits rng { r with data := data, target := target } data).indices_list.map
        List.length).headD 0 = data.length ∧
    ∃ r3, fit fitModel rng r data target = .ok r3 := by
  have hmap := genSplits_map_length rng
    ({ r with data := data, target := target } : Regressor α) data
  have hnb : ({ r with data := data, target := target } : Regressor α).num_bags
      = r.num_bags := rfl
  rw [hnb] at hmap
  have hded : ((generateSplits rng { r with data := data, target := target }
      data).indices_list.map List.length).dedup.length = 1 := by
    rw [hmap, List.replicate_dedup (Nat.pos_iff_ne_zero.mp hB)]
    rfl
  have hhead : ((generateSplits rng { r with data := data, target := target }
      data).indices_list.map List.length).headD 0 = data.length := by
    rw [hmap]
    obtain ⟨k, hk⟩ := Nat.exists_eq_succ_of_ne_zero (Nat.pos_iff_ne_zero.mp hB)
    rw [hk]
    rfl
  refine ⟨hded, hhead, ?_⟩
  unfold fit fitCore
  rw [if_neg (by rw [hded]; exact fun hc => hc rfl),
    if_neg (by rw [hhead]; exact fun hc => hc rfl)]
  exact ⟨_, rfl⟩

/-- Witness for C6: `fit` succeeds on `N = 2`, `num_bags = 2`. -/
theorem fit_assertions_unreachable_witness :
    ∃ r3, fit (fun _ _ => fun _ => some 7) (fun k => k)
      (⟨2, true, [], [], [], [], [], []⟩ : Regressor ℕ)
      [10, 20] [some 1, some 2] = .ok r3 :=
  (fit_assertions_unreachable (fun _ _ => fun _ => some 7) (fun k => k)
    ⟨2, true, [], [], [], [], [], []⟩ [10, 20] [some 1, some 2]
    (by decide) (by decide)).2.2

/-- Inversion of a successful `fitCore`: the resulting attribute state,
field by field. -/
theorem fitCore_fields [Inhabited α] {fitModel : List α → List NQ → (α → NQ)}
    {rng : ℕ → ℕ} {r : Regressor α} {data : List α} {target : List NQ}
    {s : Regressor α} (h : fitCore fitModel rng r data target = .ok s) :
    s.num_bags = r.num_bags ∧ s.oob = r.oob ∧ s.data = data ∧ s.target = target ∧
    s.indices_list = (List.range r.num_bags).map (fun bag =>
      npRandomChoice rng data.length data.length (bag * data.length)) ∧
    s.models_list = s.indices_list.map (fun idxs =>
      fitModel (idxs.map fun j => data.getD j default)
        (idxs.map fun j => target.getD j none)) := by
  simp only [fitCore] at h
  split at h
  · exact absurd h (by simp)
  · split at h
    · exact absurd h (by simp)
    · injection h with h
      subst h
      exact ⟨rfl, rfl, rfl, rfl, rfl, rfl⟩

/-- Inversion of a successful `fit`: same attribute state as `fitCore`
(the `oob` branch re-assigns values already stored). -/
theorem fit_fields [Inhabited α] {fitModel : List α → List NQ → (α → NQ)}
    {rng : ℕ → ℕ} {r : Regressor α} {data : List α} {target : List NQ}
    {s : Regressor α} (h : fit fitModel rng r data target = .ok s) :
    s.num_bags = r.num_bags ∧ s.oob = r.oob ∧ s.data = data ∧ s.target = target ∧
    s.indices_list = (List.range r.num_bags).map (fun bag =>
      npRandomChoice rng data.length data.length (bag * data.length)) ∧
    s.models_list = s.indices_list.map (fun idxs =>
      fitModel (idxs.map fun j => data.getD j default)
        (idxs.map fun j => target.getD j none)) := by
  cases hc : fitCore fitModel rng r data target with
  | error e => simp only [fit, hc] at h; exact absurd h (by simp)
  | ok r3 =>
    simp only [fit, hc] at h
    obtain ⟨hn, ho, hd, ht, hil, hml⟩ := fitCore_fields hc
    have heta : ({ r3 with data := data, target := target } : Regressor α) = r3 := by
      rw [← hd, ← ht]
    rw [heta, ite_self] at h
    injection h with h
    subst h
    exact ⟨hn, ho, hd, ht, hil, hml⟩

/-- Claim C10: `fit` stores the dataset and targets unconditionally before
the `oob` check — the state after fitting the models already has
`data`/`target` equal to the inputs for any value of the `oob` flag — and
the `oob = True` branch re-assigns the very same values, so `fit` returns
the pre-branch state unchanged. -/
theorem fit_stores_data_unconditionally [Inhabited α]
    (fitModel : List α → List NQ → (α → NQ)) (rng : ℕ → ℕ) (r : Regressor α)
    (data : List α) (target : List NQ) (r3 : Regressor α)
    (h : fitCore fitModel rng r data target = .ok r3) :
    r3.data = data ∧ r3.target = target ∧
    ({ r3 with data := data, target := target } : Regressor α) = r3 ∧
    fit fitModel rng r data target = .ok r3 := by
  obtain ⟨hn, ho, hd, ht, hil, hml⟩ := fitCore_fields h
  have heta : ({ r3 with data := data, target := target } : Regressor α) = r3 := by
    rw [← hd, ← ht]
  refine ⟨hd, ht, heta, ?_⟩
  simp only [fit, h]
  rw [heta, ite_self]

/-- Witness for C10 at a concrete `fit` call with `oob = false`. -/
theorem fit_stores_data_unconditionally_witness :
    fittedOne.data = [10, 20] ∧ fittedOne.target = [some 1, some 2] ∧
    ({ fittedOne with data := [10, 20], target := [some 1, some 2] } :
      Regressor ℕ) = fittedOne ∧
    fit (fun _ _ => fun _ => some 7) (fun _ => 0)
      (⟨1, false, [], [], [], [], [], []⟩ : Regressor ℕ)
      [10, 20] [some 1, some 2] = .ok fittedOne :=
  fit_stores_data_unconditionally (fun _ _ => fun _ => some 7) (fun _ => 0)
    ⟨1, false, [], [], [], [], [], []⟩ [10, 20] [some 1, some 2] fittedOne rfl

/-- The `i`-th gathered OOB prediction list, as the inner loop over bags. -/
theorem gatherOOB_entry [Inhabited α] (s : Regressor α) (i : ℕ)
    (hi : i < s.data.length) :
    (gatherOOB s).list_of_predictions_lists.getD i [] =
      (List.range s.num_bags).filterMap fun bag =>
        if i ∈ s.indices_list.getD bag [] then none
        else some ((s.models_list.getD bag fun _ => none) (s.data.getD i default)) := by
  have hlen : i < ((List.range s.data.length).map fun i =>
      (List.range s.num_bags).filterMap fun bag =>
        if i ∈ s.indices_list.getD bag [] then none
        else some ((s.models_list.getD bag fun _ => none)
          (s.data.getD i default))).length := by
    simpa using hi
  show ((List.range s.data.length).map _).getD i [] = _
  rw [List.getD_eq_getElem _ _ hlen]
  simp

/-- Claim C8: in the OOB-gathering step, example `i`'s prediction list is
exactly the list of predictions of the models whose bag does not contain
`i`: equal to a filter of the bag indices by non-membership followed by the
per-model prediction, with the membership characterisation spelled out. -/
theorem gatherOOB_filter_spec [Inhabited α] (s : Regressor α) (i : ℕ)
    (hi : i < s.data.length) :
    (gatherOOB s).list_of_predictions_lists.getD i [] =
      ((List.range s.num_bags).filter fun bag =>
          decide (i ∉ s.indices_list.getD bag [])).map
        (fun bag => (s.models_list.getD bag fun _ => none) (s.data.getD i default)) ∧
    ∀ p, p ∈ (gatherOOB s).list_of_predictions_lists.getD i [] ↔
      ∃ bag, bag < s.num_bags ∧ i ∉ s.indices_list.getD bag [] ∧
        p = (s.models_list.getD bag fun _ => none) (s.data.getD i default) := by
  have hmain : (gatherOOB s).list_of_predictions_lists.getD i [] =
      ((List.range s.num_bags).filter fun bag =>
          decide (i ∉ s.indices_list.getD bag [])).map
        (fun bag => (s.models_list.getD bag fun _ => none) (s.data.getD i default)) := by
    rw [gatherOOB_entry s i hi]
    refine filterMap_eq_filter_map_of _ _ _ ?_ _
    intro bag
    by_cases hmem : i ∈ s.indices_list.getD bag [] <;> simp [hmem]
  refine ⟨hmain, ?_⟩
  intro p
  rw [hmain]
  constructor
  · intro hp
    simp only [List.mem_map, List.mem_filter, List.mem_range, decide_eq_true_eq] at hp
    obtain ⟨bag, ⟨hb, hnb⟩, rfl⟩ := hp
    exact ⟨bag, hb, hnb, rfl⟩
  · intro ⟨bag, hb, hnb, hp⟩
    simp only [List.mem_map, List.mem_filter, List.mem_range, decide_eq_true_eq]
    exact ⟨bag, ⟨hb, hnb⟩, hp.symm⟩

/-- Witness for C8 at a concrete two-bag ensemble and example 1. -/
theorem gatherOOB_filter_spec_witness :
    (gatherOOB ensemble2).list_of_predictions_lists.getD 1 [] =
      ((List.range ensemble2.num_bags).filter fun bag =>
          decide (1 ∉ ensemble2.indices_list.getD bag [])).map
        (fun bag => (ensemble2.models_list.getD bag fun _ => none)
          (ensemble2.data.getD 1 default)) :=
  (gatherOOB_filter_spec ensemble2 1 (by decide)).1

/-- Claim C5: `predict` on `M` examples returns `M` predictions, the `i`-th
being the mean, over the `num_bags` fitted models, of that model's
prediction on example `i`. -/
theorem predict_mean_spec [Inhabited α] (s : Regressor α) (data : List α)
    (hm : s.models_list.length = s.num_bags) (hB : 0 < s.num_bags) :
    (predict s data).length = data.length ∧
    ∀ i, i < data.length →
      (predict s data).getD i none =
        npMean (s.models_list.map fun model => model (data.getD i default)) := by
  cases hms : s.models_list with
  | nil => rw [hms] at hm; simp at hm; omega
  | cons m ms =>
    have key : ∀ model : α → NQ, ∀ i, i < data.length →
        (data.map model).getD i none = model (data.getD i default) := by
      intro model i hi
      have him : i < (data.map model).length := by simpa using hi
      rw [List.getD_eq_getElem _ _ him, List.getElem_map,
        List.getD_eq_getElem _ _ hi]
    have hlen : (predict s data).length = data.length := by
      simp [predict, npMeanAxis0, hms]
    refine ⟨hlen, ?_⟩
    intro i hi
    have hi2 : i < (predict s data).length := by rw [hlen]; exact hi
    rw [List.getD_eq_getElem _ _ hi2]
    simp only [predict, npMeanAxis0, hms, List.map_cons]
    rw [List.getElem_map, List.getElem_range]
    congr 1
    rw [List.map_map]
    congr 1
    · exact key m i hi
    · refine List.map_congr_left ?_
      intro model hmodel
      simp only [Function.comp_apply]
      exact key model i hi

/-- Witness for C5 at a concrete two-model ensemble and two inputs. -/
theorem predict_mean_spec_witness :
    (predict ensemble2 [7, 8]).length = 2 ∧
    (predict ensemble2 [7, 8]).getD 0 none =
      npMean (ensemble2.models_list.map fun model =>
        model (([7, 8] : List ℕ).getD 0 default)) := by
  have h := predict_mean_spec ensemble2 [7, 8] rfl (by decide)
  exact ⟨h.1, h.2 0 (by decide)⟩

/-- Claim C1 (code-bug evidence): in `exState1` (one bag `[0, 0]`,
`num_bags = 1`), example 0 appears in the only bag so its OOB list is
empty, and example 1 is out of bag with exactly one prediction, yet
`_get_averaged_oob_predictions` gives example 0 the non-absent value
`np.mean([]) = NaN` (here `some none`) and marks example 1 — which has a
prediction — absent (`none`): the opposite of "absent iff the prediction
list is empty". -/
theorem averagedOOB_contradicts_empty_test :
    (gatherOOB exState1).list_of_predictions_lists = [[], [some 5]] ∧
    (averagedOOB exState1).oob_predictions = [some none, none] := by
  constructor <;> rfl

/-- Claim C2 (counterexample): it is false that an example is marked absent
exactly when its prediction-list length is below `num_bags`: example 0 of
`exState1` has list length `0 < num_bags = 1` yet its averaged entry is not
`None`. -/
theorem averagedOOB_lt_test_counterexample :
    ((gatherOOB exState1).list_of_predictions_lists.getD 0 []).length
        < exState1.num_bags ∧
    (averagedOOB exState1).oob_predictions.getD 0 none ≠ none := by
  constructor
  · decide
  · intro h
    exact absurd ((congrArg (fun l => List.getD l 0 none) (by rfl :
      (averagedOOB exState1).oob_predictions = [some none, none])).symm.trans h)
      (by decide)

/-- The `i`-th averaged OOB entry, for any in-range `i` and any default. -/
theorem averagedOOB_entryD [Inhabited α] (s : Regressor α) (i : ℕ) (d : Option NQ)
    (hi : i < (gatherOOB s).list_of_predictions_lists.length) :
    (averagedOOB s).oob_predictions.getD i d =
      if ((gatherOOB s).list_of_predictions_lists.getD i []).length < s.num_bags
      then some (npMean ((gatherOOB s).list_of_predictions_lists.getD i []))
      else none := by
  have hlen : i < (averagedOOB s).oob_predictions.length := by
    simpa [averagedOOB] using hi
  rw [List.getD_eq_getElem _ _ hlen, List.getD_eq_getElem _ _ hi]
  simp only [averagedOOB, List.getElem_map]
  rfl

/-- Claim C2 (amended): in the averaged-OOB step, an example's entry is
absent (`None`) exactly when its prediction-list length is NOT strictly
less than `num_bags` (i.e. it equals `num_bags`), and the elementwise mean
is computed when the length IS strictly less than `num_bags`. -/
theorem averagedOOB_literal_spec [Inhabited α] (s : Regressor α) (i : ℕ)
    (hi : i < (gatherOOB s).list_of_predictions_lists.length) :
    ((averagedOOB s).oob_predictions.getD i (some none) = none ↔
      ¬ ((gatherOOB s).list_of_predictions_lists.getD i []).length < s.num_bags) ∧
    (((gatherOOB s).list_of_predictions_lists.getD i []).length < s.num_bags →
      (averagedOOB s).oob_predictions.getD i (some none) =
        some (npMean ((gatherOOB s).list_of_predictions_lists.getD i []))) := by
  rw [averagedOOB_entryD s i (some none) hi]
  by_cases hlt : ((gatherOOB s).list_of_predictions_lists.getD i []).length < s.num_bags
  · rw [if_pos hlt]
    exact ⟨⟨fun h => absurd h (by simp), fun h => absurd hlt h⟩, fun _ => rfl⟩
  · rw [if_neg hlt]
    exact ⟨⟨fun _ => hlt, fun _ => rfl⟩, fun h => absurd h hlt⟩

/-- Witness for the amended C2 at `exState1`, example 0 (length 0 < 1). -/
theorem averagedOOB_literal_spec_witness :
    (averagedOOB exState1).oob_predictions.getD 0 (some none) =
      some (npMean ((gatherOOB exState1).list_of_predictions_lists.getD 0 [])) :=
  (averagedOOB_literal_spec exState1 0 (by decide)).2 (by decide)

/-- Claim C3: after `fit` with `num_bags = 1`, an example not in the single
bag gathers exactly one OOB prediction — the single model's direct
prediction on it — and an example in the bag gathers zero OOB predictions
and contributes nothing to the `OOB_score` squared-error list. -/
theorem single_bag_oob_spec [Inhabited α] (fitModel : List α → List NQ → (α → NQ))
    (rng : ℕ → ℕ) (r : Regressor α) (data : List α) (target : List NQ)
    (s : Regressor α) (hB : r.num_bags = 1)
    (h : fit fitModel rng r data target = .ok s) :
    ∀ i, i < data.length →
      (i ∉ s.indices_list.getD 0 [] →
        (gatherOOB s).list_of_predictions_lists.getD i [] =
          [(s.models_list.getD 0 fun _ => none) (data.getD i default)]) ∧
      (i ∈ s.indices_list.getD 0 [] →
        (gatherOOB s).list_of_predictions_lists.getD i [] = [] ∧
        oobContribution (averagedOOB s) i = none) := by
  obtain ⟨hn, ho, hd, ht, hil, hml⟩ := fit_fields h
  rw [hB] at hn
  intro i hi
  have hi2 : i < s.data.length := by rw [hd]; exact hi
  have hentry := gatherOOB_entry s i hi2
  rw [hn] at hentry
  have hr1 : List.range 1 = [0] := by decide
  rw [hr1] at hentry
  constructor
  · intro hnotmem
    rw [hentry]
    simp only [List.filterMap_cons, List.filterMap_nil, if_neg hnotmem, hd]
  · intro hmem
    have hempty : (gatherOOB s).list_of_predictions_lists.getD i [] = [] := by
      rw [hentry]
      simp only [List.filterMap_cons, List.filterMap_nil, if_pos hmem]
    refine ⟨hempty, ?_⟩
    have hlen2 : i < (gatherOOB s).list_of_predictions_lists.length := by
      show i < ((List.range s.data.length).map _).length
      simpa using hi2
    have hoobp : (averagedOOB s).oob_predictions.getD i none = some none := by
      rw [averagedOOB_entryD s i none hlen2, hempty,
        if_pos (by rw [hn]; exact Nat.zero_lt_one)]
      rfl
    unfold oobContribution
    rw [hoobp]
    rfl

/-- Witness for C3 at `fittedOne` (bag `[0, 0]`): example 1 is out of bag
with the single prediction `7`; example 0 is in the bag and contributes
nothing to the score. -/
theorem single_bag_oob_spec_witness :
    (gatherOOB fittedOne).list_of_predictions_lists.getD 1 [] = [some 7] ∧
    (gatherOOB fittedOne).list_of_predictions_lists.getD 0 [] = [] ∧
    oobContribution (averagedOOB fittedOne) 0 = none := by
  have h1 := (single_bag_oob_spec (fun _ _ => fun _ => some 7) (fun _ => 0)
    ⟨1, false, [], [], [], [], [], []⟩ [10, 20] [some 1, some 2] fittedOne
    rfl rfl 1 (by decide)).1 (by decide)
  have h0 := (single_bag_oob_spec (fun _ _ => fun _ => some 7) (fun _ => 0)
    ⟨1, false, [], [], [], [], [], []⟩ [10, 20] [some 1, some 2] fittedOne
    rfl rfl 0 (by decide)).2 (by decide)
  exact ⟨by rw [h1]; rfl, h0.1, h0.2⟩

/-- Claim C4: `OOB_score` is the mean of the squared errors of exactly the
examples whose averaged OOB prediction is present and whose squared error
has no NaN component, and it is NaN (`none`) when no example qualifies. -/
theorem OOB_score_filter_spec [Inhabited α] (s : Regressor α) :
    (OOB_score s).1 =
      npMean (((List.range s.data.length).filter
        (specQualifies (averagedOOB s))).map (specSqError (averagedOOB s))) ∧
    ((List.range s.data.length).filter (specQualifies (averagedOOB s)) = [] →
      (OOB_score s).1 = none) := by
  have hchar : ∀ i, oobContribution (averagedOOB s) i =
      if specQualifies (averagedOOB s) i
      then some (specSqError (averagedOOB s) i) else none := by
    intro i
    simp only [oobContribution, specQualifies, specSqError]
    cases hp : (averagedOOB s).oob_predictions.getD i none with
    | none => rfl
    | some p =>
      simp only [Option.isSome_some, Option.getD_some, Bool.true_and]
      cases hb : npIsnanAny (nqSqr (nqSub p ((averagedOOB s).target.getD i none))) <;>
        simp [hb]
  have hmain : (OOB_score s).1 =
      npMean (((List.range s.data.length).filter
        (specQualifies (averagedOOB s))).map (specSqError (averagedOOB s))) := by
    show npMean ((List.range s.data.length).filterMap
      (oobContribution (averagedOOB s))) = _
    rw [filterMap_eq_filter_map_of _ _ _ hchar]
  refine ⟨hmain, ?_⟩
  intro hempty
  rw [hmain, hempty]
  rfl

/-- Witness for C4 at `exState1`, where no example qualifies (example 0 has
a NaN averaged prediction, example 1 is absent), so the score is NaN. -/
theorem OOB_score_filter_spec_witness : (OOB_score exState1).1 = none :=
  (OOB_score_filter_spec exState1).2 (by decide)

/-- Claim C9: calling `OOB_score` a second time on the state returned by a
first call (no intervening `fit` or random draws) returns the same score:
the derived attributes it overwrites are recomputed from unchanged inputs. -/
theorem OOB_score_idempotent [Inhabited α] (s : Regressor α) :
    (OOB_score (OOB_score s).2).1 = (OOB_score s).1 := rfl

end Bagging
